/-
Verification of the damage-growth simulation core (sim.py).

The Python module defines:
  * bacterial_growth(t, state, k, T, alpha, c, r) — the hybrid ODE
    right-hand side;
  * simulate(k, T, alpha, c, x0, y0, r) — builds a fixed time grid
    t_eval = linspace(0, 6, 100), calls scipy.integrate.solve_ivp and
    returns (solution.t, solution.y[0], solution.y[1]) unchecked;
  * find_crash_time(t, y, T) — linear scan for the first sample with
    y[i] >= T, returning t[i], or None when no sample qualifies;
  * a __main__ block that runs two simulations and sets shared axis
    limits from max_x = max(max(x1), max(x2)) scaled by 1.1 (and the
    same for the damage series).

Real scalars of the program are embedded as rationals (ℚ) so that every
definition is executable and every concrete instance can be checked by
evaluation.  scipy's solve_ivp is external library code; it is abstracted
as a function argument `solve : IvpArgs → Solution`, and the documented
guarantee that a successful solve reports exactly the requested t_eval
grid is expressed as the explicit predicate HonorsTEval.
-/
import Mathlib

/-- The growth gate: the Python expression `(y < T)` used as a number in
`bacterial_growth` (bool coerces to 1.0 / 0.0). -/
def gate (y T : ℚ) : ℚ := if y < T then 1 else 0

/-- sim.py, bacterial_growth: state is the pair (y, x); returns the pair
(dy_dt, dx_dt) with dy_dt = r * (alpha * c - y) and
dx_dt = r * x * (1 - x / k) * (y < T). -/
def bacterial_growth (_t : ℚ) (state : ℚ × ℚ) (k T alpha c r : ℚ) : ℚ × ℚ :=
  let y := state.1
  let x := state.2
  (r * (alpha * c - y), r * x * (1 - x / k) * gate y T)

/-- numpy.linspace(a, b, n): n evenly spaced points from a to b,
endpoints included (for n ≥ 2 the i-th point is a + (b-a)*i/(n-1)). -/
def linspace (a b : ℚ) (n : ℕ) : List ℚ :=
  (List.range n).map (fun i : ℕ => a + (b - a) * (i : ℚ) / ((n : ℚ) - 1))

/-- The argument record simulate passes to scipy.integrate.solve_ivp:
the span (0, 6), the initial state [y0, x0], the evaluation grid
t_eval = linspace(0, 6, 100), and the extra args (k, T, alpha, c, r)
forwarded to bacterial_growth. -/
structure IvpArgs where
  t0 : ℚ
  tEnd : ℚ
  init : List ℚ
  tEval : List ℚ
  k : ℚ
  T : ℚ
  alpha : ℚ
  c : ℚ
  r : ℚ

/-- The solution object returned by scipy.integrate.solve_ivp, as the
code consumes it: solution.t, solution.y[0] (damage), solution.y[1]
(density), and solution.success.  On failure solve_ivp returns the
object with success = False and possibly truncated arrays; it does not
raise. -/
structure Solution where
  t : List ℚ
  damage : List ℚ
  density : List ℚ
  success : Bool

/-- The exact argument record built by simulate's body: t_span = (0, 6),
initial state [y0, x0], t_eval = linspace over t_span with 100 points. -/
def simArgs (k T alpha c x0 y0 r : ℚ) : IvpArgs :=
  let t_span : ℚ × ℚ := (0, 6)
  let t_eval := linspace t_span.1 t_span.2 100
  { t0 := t_span.1, tEnd := t_span.2, init := [y0, x0], tEval := t_eval,
    k := k, T := T, alpha := alpha, c := c, r := r }

/-- sim.py, simulate: builds the fixed span and grid, calls the solver
once, and returns (solution.t, solution.y[0], solution.y[1]).  There is
no parameter check, no horizon argument and no inspection of
solution.success. -/
def simulate (solve : IvpArgs → Solution) (k T alpha c x0 y0 r : ℚ) :
    List ℚ × List ℚ × List ℚ :=
  let solution := solve (simArgs k T alpha c x0 y0 r)
  (solution.t, solution.damage, solution.density)

/-- Documented contract of scipy.integrate.solve_ivp (external library):
when integration succeeds and t_eval was supplied, the reported times
are exactly t_eval and each state row carries one value per time. -/
def HonorsTEval (solve : IvpArgs → Solution) : Prop :=
  ∀ a : IvpArgs, (solve a).success = true →
    (solve a).t = a.tEval ∧
    (solve a).damage.length = a.tEval.length ∧
    (solve a).density.length = a.tEval.length

/-- sim.py, find_crash_time: for i in range(len(y)): if y[i] >= T:
return t[i]; return None.  The outer Option models the Python call
outcome (none = an IndexError raised while reading t[i]); the inner
Option is the function's own return value (None or a time). -/
def find_crash_time : List ℚ → List ℚ → ℚ → Option (Option ℚ)
  | _, [], _ => some none
  | [], yi :: yr, T => if T ≤ yi then none else find_crash_time [] yr T
  | ti :: tr, yi :: yr, T =>
      if T ≤ yi then some (some ti) else find_crash_time tr yr T

/-- Python max over a list: the greatest element for a nonempty list,
none where Python would raise on an empty one. -/
def pymax : List ℚ → Option ℚ
  | [] => none
  | v :: vs => some (vs.foldl max v)

/-- The __main__ block's shared axis bounds: max_x = max(max(x1),
max(x2)), max_y = max(max(y1), max(y2)), and the upper y-limits set on
the axes are max_x * 1.1 and max_y * 1.1. -/
def sweepAxisBounds (x1 x2 y1 y2 : List ℚ) : Option (ℚ × ℚ) :=
  match pymax x1, pymax x2, pymax y1, pymax y2 with
  | some a, some b, some p, some q =>
      some ((max a b) * 1.1, (max p q) * 1.1)
  | _, _, _, _ => none

/-- A solver satisfying the solve_ivp success contract: it echoes the
requested grid with one (placeholder) state value per time. -/
def gridSolver : IvpArgs → Solution :=
  fun a =>
    { t := a.tEval, damage := a.tEval.map (fun _ => 0),
      density := a.tEval.map (fun _ => 0), success := true }

/-- The same arrays as gridSolver but flagged as a failed run: used to
show simulate's output never depends on the success flag. -/
def gridSolverFailed : IvpArgs → Solution :=
  fun a =>
    { t := a.tEval, damage := a.tEval.map (fun _ => 0),
      density := a.tEval.map (fun _ => 0), success := false }

/-- A solver aborting early, as solve_ivp does on step-size underflow:
success = False and arrays truncated to the first grid point. -/
def truncatedSolver : IvpArgs → Solution :=
  fun a =>
    { t := [a.t0], damage := [a.init.headD 0], density := [0],
      success := false }

/-- C1: for every state (y, x) and parameters with k ≠ 0, the right-hand
side returns exactly (r * (alpha*c - y), r * x * (1 - x/k) * gate y T),
the gate is the indicator of y < T, dy/dt does not depend on x, and
dx/dt = 0 whenever y ≥ T. -/
theorem bacterial_growth_spec (t y x k T alpha c r : ℚ) (hk : k ≠ 0) :
    bacterial_growth t (y, x) k T alpha c r
      = (r * (alpha * c - y), r * x * (1 - x / k) * gate y T)
    ∧ (y < T → gate y T = 1) ∧ (T ≤ y → gate y T = 0)
    ∧ (∀ x' : ℚ,
        (bacterial_growth t (y, x') k T alpha c r).1
          = (bacterial_growth t (y, x) k T alpha c r).1)
    ∧ (T ≤ y → (bacterial_growth t (y, x) k T alpha c r).2 = 0) := by
  refine ⟨rfl, fun h => by simp [gate, h], fun h => ?_, fun x' => rfl, fun h => ?_⟩
  · simp [gate, not_lt.mpr h]
  · simp [bacterial_growth, gate, not_lt.mpr h]

/-- Witness for C1 at t = 0, (y, x) = (2, 1), k = 1, T = 1, alpha = 1,
c = 1, r = 1 (a state above threshold, so growth is gated off). -/
theorem bacterial_growth_spec_witness :
    (1 : ℚ) ≠ 0
    ∧ (bacterial_growth 0 (2, 1) 1 1 1 1 1
          = (1 * (1 * 1 - 2), 1 * 1 * (1 - 1 / 1) * gate 2 1)
        ∧ ((2 : ℚ) < 1 → gate 2 1 = 1) ∧ ((1 : ℚ) ≤ 2 → gate 2 1 = 0)
        ∧ (∀ x' : ℚ,
            (bacterial_growth 0 (2, x') 1 1 1 1 1).1
              = (bacterial_growth 0 (2, 1) 1 1 1 1 1).1)
        ∧ ((1 : ℚ) ≤ 2 → (bacterial_growth 0 (2, 1) 1 1 1 1 1).2 = 0)) :=
  ⟨by norm_num, bacterial_growth_spec 0 2 1 1 1 1 1 1 (by norm_num)⟩

/-- C7: the growth gate and the crash test are exactly complementary:
gate y T = 1 iff the crash condition T ≤ y fails, gate y T = 0 iff it
holds, no y both permits growth and counts as a crash, every y does one
or the other, and on a one-sample trajectory the detector fires exactly
when the gate is 0. -/
theorem gate_crash_complementary (y T : ℚ) :
    (gate y T = 1 ↔ ¬ T ≤ y)
    ∧ (gate y T = 0 ↔ T ≤ y)
    ∧ ¬ (gate y T = 1 ∧ T ≤ y)
    ∧ (gate y T = 1 ∨ T ≤ y)
    ∧ (∀ t0 : ℚ, find_crash_time [t0] [y] T = some (some t0) ↔ gate y T = 0) := by
  by_cases h : y < T
  · refine ⟨by simp [gate, h, not_le.mpr h], by simp [gate, h, not_le.mpr h],
      by simp [gate, h, not_le.mpr h], Or.inl (by simp [gate, h]), fun t0 => ?_⟩
    simp [find_crash_time, gate, h, not_le.mpr h]
  · have hT : T ≤ y := not_lt.mp h
    refine ⟨by simp [gate, h, hT], by simp [gate, h, hT], by simp [gate, h],
      Or.inr hT, fun t0 => ?_⟩
    simp [find_crash_time, gate, h, hT]

/-- If the first index whose damage reaches T is i, the scan returns the
i-th time (helper, by structural induction on the damage list). -/
theorem find_crash_time_at_first :
    ∀ (y t : List ℚ) (T : ℚ) (i : ℕ) (hi : i < y.length) (ht : i < t.length),
      T ≤ y.get ⟨i, hi⟩ →
      (∀ j (hj : j < i), y.get ⟨j, Nat.lt_trans hj hi⟩ < T) →
      find_crash_time t y T = some (some (t.get ⟨i, ht⟩))
  | [], _, _, i, hi, _, _, _ => absurd hi (by simp)
  | _ :: _, [], _, i, _, ht, _, _ => absurd ht (by simp)
  | yh :: yt, th :: tt, T, 0, hi, ht, hcross, _ => by
      have h0 : T ≤ yh := by simpa using hcross
      simp [find_crash_time, h0]
  | yh :: yt, th :: tt, T, i + 1, hi, ht, hcross, hbefore => by
      have h0 : yh < T := by simpa using hbefore 0 (Nat.succ_pos i)
      have hrec : find_crash_time tt yt T
          = some (some (tt.get ⟨i, Nat.lt_of_succ_lt_succ ht⟩)) :=
        find_crash_time_at_first yt tt T i (Nat.lt_of_succ_lt_succ hi)
          (Nat.lt_of_succ_lt_succ ht) (by simpa using hcross)
          (fun j hj => by simpa using hbefore (j + 1) (Nat.succ_lt_succ hj))
      simp [find_crash_time, not_le.mpr h0, hrec]

/-- If no sample reaches T the scan returns Python None (helper). -/
theorem find_crash_time_no_cross :
    ∀ (y t : List ℚ) (T : ℚ),
      (∀ i (hi : i < y.length), y.get ⟨i, hi⟩ < T) →
      find_crash_time t y T = some none
  | [], t, _, _ => by cases t <;> rfl
  | yh :: yt, [], T, hall => by
      have h0 : yh < T := by simpa using hall 0 (Nat.succ_pos _)
      have hrec := find_crash_time_no_cross yt [] T
        (fun i hi => by simpa using hall (i + 1) (Nat.succ_lt_succ hi))
      simp [find_crash_time, not_le.mpr h0, hrec]
  | yh :: yt, _ :: tt, T, hall => by
      have h0 : yh < T := by simpa using hall 0 (Nat.succ_pos _)
      have hrec := find_crash_time_no_cross yt tt T
        (fun i hi => by simpa using hall (i + 1) (Nat.succ_lt_succ hi))
      simp [find_crash_time, not_le.mpr h0, hrec]

/-- C2: for equal-length t and y, if i is the first index with y[i] ≥ T
then find_crash_time returns exactly t[i]; if no sample satisfies
y[i] ≥ T it returns the explicit absent value None. -/
theorem find_crash_time_spec (t y : List ℚ) (T : ℚ)
    (hlen : t.length = y.length) :
    (∀ i (hi : i < y.length) (ht : i < t.length),
        T ≤ y.get ⟨i, hi⟩ →
        (∀ j (hj : j < i), y.get ⟨j, Nat.lt_trans hj hi⟩ < T) →
        find_crash_time t y T = some (some (t.get ⟨i, ht⟩)))
    ∧ ((∀ i (hi : i < y.length), y.get ⟨i, hi⟩ < T) →
        find_crash_time t y T = some none) :=
  ⟨fun i hi ht hcross hbefore =>
      find_crash_time_at_first y t T i hi ht hcross hbefore,
    fun hall => find_crash_time_no_cross y t T hall⟩

/-- Witness for C2 on t = [0, 1, 2], y = [0, 2, 3], T = 2: the first
crossing is at index 1 and both branch statements hold there. -/
theorem find_crash_time_spec_witness :
    (([0, 1, 2] : List ℚ).length = ([0, 2, 3] : List ℚ).length)
    ∧ ((∀ i (hi : i < ([0, 2, 3] : List ℚ).length)
          (ht : i < ([0, 1, 2] : List ℚ).length),
          (2 : ℚ) ≤ ([0, 2, 3] : List ℚ).get ⟨i, hi⟩ →
          (∀ j (hj : j < i),
            ([0, 2, 3] : List ℚ).get ⟨j, Nat.lt_trans hj hi⟩ < 2) →
          find_crash_time [0, 1, 2] [0, 2, 3] 2
            = some (some (([0, 1, 2] : List ℚ).get ⟨i, ht⟩)))
      ∧ ((∀ i (hi : i < ([0, 2, 3] : List ℚ).length),
            ([0, 2, 3] : List ℚ).get ⟨i, hi⟩ < 2) →
          find_crash_time [0, 1, 2] [0, 2, 3] 2 = some none)) :=
  ⟨by decide, find_crash_time_spec [0, 1, 2] [0, 2, 3] 2 (by decide)⟩

/-- The scan never raises when t is at least as long as y: it yields
None or the time at the index of the first crossing (helper). -/
theorem find_crash_time_total :
    ∀ (y t : List ℚ) (T : ℚ), y.length ≤ t.length →
      ∃ r, find_crash_time t y T = some r ∧
        (r = none ∨ ∃ (i : ℕ) (hi : i < y.length) (ht : i < t.length),
          r = some (t.get ⟨i, ht⟩) ∧ T ≤ y.get ⟨i, hi⟩ ∧
          ∀ j (hj : j < i), y.get ⟨j, Nat.lt_trans hj hi⟩ < T)
  | [], t, T, _ => ⟨none, by cases t <;> rfl, Or.inl rfl⟩
  | _ :: _, [], _, hlen => absurd hlen (by simp)
  | yh :: yt, th :: tt, T, hlen => by
      by_cases h : T ≤ yh
      · refine ⟨some th, by simp [find_crash_time, h], Or.inr ?_⟩
        exact ⟨0, Nat.succ_pos _, Nat.succ_pos _, rfl, by simpa using h,
          fun j hj => absurd hj (Nat.not_lt_zero j)⟩
      · obtain ⟨r, hr, hcase⟩ :=
          find_crash_time_total yt tt T (Nat.le_of_succ_le_succ hlen)
        refine ⟨r, by simp [find_crash_time, h, hr], ?_⟩
        rcases hcase with rfl | ⟨i, hi, ht, hrv, hcross, hbefore⟩
        · exact Or.inl rfl
        · refine Or.inr ⟨i + 1, Nat.succ_lt_succ hi, Nat.succ_lt_succ ht,
            by simpa using hrv, by simpa using hcross, ?_⟩
          intro j hj
          cases j with
          | zero => simpa using not_le.mp h
          | succ j' => simpa using hbefore j' (Nat.lt_of_succ_lt_succ hj)

/-- C10: with t at least as long as y, find_crash_time returns without
raising; the result is None or the element of t at the index of the
first crossing, and on an empty damage list it is None. -/
theorem find_crash_time_safe (t y : List ℚ) (T : ℚ)
    (hlen : y.length ≤ t.length) :
    (∃ r, find_crash_time t y T = some r ∧
        (r = none ∨ ∃ (i : ℕ) (hi : i < y.length) (ht : i < t.length),
          r = some (t.get ⟨i, ht⟩) ∧ T ≤ y.get ⟨i, hi⟩ ∧
          ∀ j (hj : j < i), y.get ⟨j, Nat.lt_trans hj hi⟩ < T))
    ∧ find_crash_time t [] T = some none :=
  ⟨find_crash_time_total y t T hlen, by cases t <;> rfl⟩

/-- Witness for C10 on t = [0, 1], y = [5], T = 3: the damage list is
shorter than the time list and the crossing is at index 0. -/
theorem find_crash_time_safe_witness :
    (([5] : List ℚ).length ≤ ([0, 1] : List ℚ).length)
    ∧ ((∃ r, find_crash_time [0, 1] [5] 3 = some r ∧
          (r = none ∨ ∃ (i : ℕ) (hi : i < ([5] : List ℚ).length)
            (ht : i < ([0, 1] : List ℚ).length),
            r = some (([0, 1] : List ℚ).get ⟨i, ht⟩) ∧
            (3 : ℚ) ≤ ([5] : List ℚ).get ⟨i, hi⟩ ∧
            ∀ j (hj : j < i),
              ([5] : List ℚ).get ⟨j, Nat.lt_trans hj hi⟩ < 3))
      ∧ find_crash_time [0, 1] [] 3 = some none) :=
  ⟨by decide, find_crash_time_safe [0, 1] [5] 3 (by decide)⟩

/-- linspace produces exactly n points (helper). -/
theorem linspace_length (a b : ℚ) (n : ℕ) : (linspace a b n).length = n := by
  unfold linspace
  rw [List.length_map, List.length_range]

/-- Closed form of the i-th linspace point (helper). -/
theorem linspace_get? (a b : ℚ) (n i : ℕ) (h : i < n) :
    (linspace a b n).get? i = some (a + (b - a) * (i : ℚ) / ((n : ℚ) - 1)) := by
  unfold linspace
  rw [List.get?_eq_getElem?, List.getElem?_map, List.getElem?_range h]
  rfl

/-- The i-th point of the simulation grid is 6i/99 (helper). -/
theorem simGrid_get? (i : ℕ) (h : i < 100) :
    (linspace 0 6 100).get? i = some (6 * (i : ℚ) / 99) := by
  rw [linspace_get? 0 6 100 i h]
  norm_num

/-- C6: under the solve_ivp success contract, a successful simulate call
returns three arrays of length exactly 100 on one shared grid; the times
are 6i/99, so they start at 0, end at 6, are evenly spaced with gap 6/99
and strictly increasing. -/
theorem simulate_trajectory_shape (solve : IvpArgs → Solution)
    (hs : HonorsTEval solve) (k T alpha c x0 y0 r : ℚ)
    (hsucc : (solve (simArgs k T alpha c x0 y0 r)).success = true) :
    (simulate solve k T alpha c x0 y0 r).1.length = 100
    ∧ (simulate solve k T alpha c x0 y0 r).2.1.length = 100
    ∧ (simulate solve k T alpha c x0 y0 r).2.2.length = 100
    ∧ (∀ i : ℕ, i < 100 →
        (simulate solve k T alpha c x0 y0 r).1.get? i
          = some (6 * (i : ℚ) / 99))
    ∧ (simulate solve k T alpha c x0 y0 r).1.get? 0 = some 0
    ∧ (simulate solve k T alpha c x0 y0 r).1.get? 99 = some 6
    ∧ (∀ (i : ℕ) (a b : ℚ), i + 1 < 100 →
        (simulate solve k T alpha c x0 y0 r).1.get? i = some a →
        (simulate solve k T alpha c x0 y0 r).1.get? (i + 1) = some b →
        b - a = 6 / 99 ∧ a < b)
    ∧ (∀ (i j : ℕ) (a b : ℚ), i < j → j < 100 →
        (simulate solve k T alpha c x0 y0 r).1.get? i = some a →
        (simulate solve k T alpha c x0 y0 r).1.get? j = some b →
        a < b) := by
  obtain ⟨ht, hd, hx⟩ := hs (simArgs k T alpha c x0 y0 r) hsucc
  have h1 : (simulate solve k T alpha c x0 y0 r).1 = linspace 0 6 100 := ht
  have h2 : (simulate solve k T alpha c x0 y0 r).2.1.length
      = (linspace 0 6 100).length := hd
  have h3 : (simulate solve k T alpha c x0 y0 r).2.2.length
      = (linspace 0 6 100).length := hx
  have hpt : ∀ i : ℕ, i < 100 →
      (simulate solve k T alpha c x0 y0 r).1.get? i
        = some (6 * (i : ℚ) / 99) := by
    intro i hi
    rw [h1]
    exact simGrid_get? i hi
  refine ⟨by rw [h1]; exact linspace_length 0 6 100,
    by rw [h2]; exact linspace_length 0 6 100,
    by rw [h3]; exact linspace_length 0 6 100,
    hpt, ?_, ?_, ?_, ?_⟩
  · simpa using hpt 0 (by norm_num)
  · have h99 := hpt 99 (by norm_num)
    norm_num at h99 ⊢
    exact h99
  · intro i a b hi ha hb
    have hia := hpt i (by omega)
    have hib := hpt (i + 1) (by omega)
    rw [ha] at hia
    rw [hb] at hib
    have hav := Option.some.inj hia
    have hbv := Option.some.inj hib
    subst hav
    subst hbv
    constructor
    · push_cast
      ring
    · push_cast
      have hpos : (0 : ℚ) < 6 / 99 := by norm_num
      linarith
  · intro i j a b hij hj ha hb
    have hia := hpt i (by omega)
    have hib := hpt j hj
    rw [ha] at hia
    rw [hb] at hib
    have hav := Option.some.inj hia
    have hbv := Option.some.inj hib
    subst hav
    subst hbv
    have hc : (i : ℚ) < j := by exact_mod_cast hij
    linarith

/-- gridSolver obeys the solve_ivp success contract (helper). -/
theorem gridSolver_honors : HonorsTEval gridSolver :=
  fun a _ => ⟨rfl, by simp [gridSolver], by simp [gridSolver]⟩

/-- Witness for C6 with the contract-conforming gridSolver at the
spec's end-to-end parameters k = 1, T = 1/2, alpha = 5/2, c = 1/5,
x0 = 1/10, y0 = 0, r = 1. -/
theorem simulate_trajectory_shape_witness :
    HonorsTEval gridSolver
    ∧ (gridSolver (simArgs 1 (1/2) (5/2) (1/5) (1/10) 0 1)).success = true
    ∧ ((simulate gridSolver 1 (1/2) (5/2) (1/5) (1/10) 0 1).1.length = 100
      ∧ (simulate gridSolver 1 (1/2) (5/2) (1/5) (1/10) 0 1).2.1.length = 100
      ∧ (simulate gridSolver 1 (1/2) (5/2) (1/5) (1/10) 0 1).2.2.length = 100
      ∧ (∀ i : ℕ, i < 100 →
          (simulate gridSolver 1 (1/2) (5/2) (1/5) (1/10) 0 1).1.get? i
            = some (6 * (i : ℚ) / 99))
      ∧ (simulate gridSolver 1 (1/2) (5/2) (1/5) (1/10) 0 1).1.get? 0 = some 0
      ∧ (simulate gridSolver 1 (1/2) (5/2) (1/5) (1/10) 0 1).1.get? 99 = some 6
      ∧ (∀ (i : ℕ) (a b : ℚ), i + 1 < 100 →
          (simulate gridSolver 1 (1/2) (5/2) (1/5) (1/10) 0 1).1.get? i = some a →
          (simulate gridSolver 1 (1/2) (5/2) (1/5) (1/10) 0 1).1.get? (i + 1) = some b →
          b - a = 6 / 99 ∧ a < b)
      ∧ (∀ (i j : ℕ) (a b : ℚ), i < j → j < 100 →
          (simulate gridSolver 1 (1/2) (5/2) (1/5) (1/10) 0 1).1.get? i = some a →
          (simulate gridSolver 1 (1/2) (5/2) (1/5) (1/10) 0 1).1.get? j = some b →
          a < b)) :=
  ⟨gridSolver_honors, rfl,
    simulate_trajectory_shape gridSolver gridSolver_honors
      1 (1/2) (5/2) (1/5) (1/10) 0 1 rfl⟩

/-- C3 counterexample: with k = 0 simulate performs no validation: the
solver is still invoked (its argument record carries k = 0) and a full
100-sample trajectory is returned; no InvalidParameter error occurs. -/
theorem simulate_no_validation_counterexample :
    (simArgs 0 (3/10) (5/2) (1/5) (1/10) 0 1).k = 0
    ∧ simulate gridSolver 0 (3/10) (5/2) (1/5) (1/10) 0 1
        = (linspace 0 6 100, (linspace 0 6 100).map (fun _ => 0),
           (linspace 0 6 100).map (fun _ => 0))
    ∧ (simulate gridSolver 0 (3/10) (5/2) (1/5) (1/10) 0 1).1.length = 100 :=
  ⟨rfl, rfl, linspace_length 0 6 100⟩

/-- C3 amended: simulate performs no parameter validation: even with
k = 0 it invokes the solver (which receives k = 0 verbatim) and returns
the solver's arrays unchanged; no InvalidParameter outcome exists. -/
theorem simulate_no_validation (solve : IvpArgs → Solution)
    (T alpha c x0 y0 r : ℚ) :
    (simArgs 0 T alpha c x0 y0 r).k = 0
    ∧ simulate solve 0 T alpha c x0 y0 r
        = ((solve (simArgs 0 T alpha c x0 y0 r)).t,
           (solve (simArgs 0 T alpha c x0 y0 r)).damage,
           (solve (simArgs 0 T alpha c x0 y0 r)).density) :=
  ⟨rfl, rfl⟩

/-- C4 counterexample: when the solver fails (success = False, arrays
truncated to a single sample) simulate returns the truncated arrays as
an ordinary trajectory instead of surfacing an IntegrationFailure. -/
theorem simulate_silent_failure_counterexample :
    (truncatedSolver (simArgs 1 (3/10) (5/2) (1/5) (1/10) 0 1)).success = false
    ∧ simulate truncatedSolver 1 (3/10) (5/2) (1/5) (1/10) 0 1
        = ([0], [0], [0])
    ∧ (simulate truncatedSolver 1 (3/10) (5/2) (1/5) (1/10) 0 1).1.length
        = 1 :=
  ⟨rfl, rfl, rfl⟩

/-- C4 amended: simulate never inspects the solver's success flag: two
solvers returning the same arrays but opposite success statuses produce
identical simulate results, so failures are silently passed through. -/
theorem simulate_ignores_success (s1 s2 : IvpArgs → Solution)
    (k T alpha c x0 y0 r : ℚ)
    (ht : ∀ a, (s1 a).t = (s2 a).t)
    (hd : ∀ a, (s1 a).damage = (s2 a).damage)
    (hx : ∀ a, (s1 a).density = (s2 a).density) :
    simulate s1 k T alpha c x0 y0 r = simulate s2 k T alpha c x0 y0 r := by
  have h1 := ht (simArgs k T alpha c x0 y0 r)
  have h2 := hd (simArgs k T alpha c x0 y0 r)
  have h3 := hx (simArgs k T alpha c x0 y0 r)
  simp [simulate, h1, h2, h3]

/-- Witness for the amended C4: gridSolver and gridSolverFailed agree on
all arrays, differ on the success flag, and simulate cannot tell them
apart. -/
theorem simulate_ignores_success_witness :
    (∀ a, (gridSolver a).t = (gridSolverFailed a).t)
    ∧ (∀ a, (gridSolver a).damage = (gridSolverFailed a).damage)
    ∧ (∀ a, (gridSolver a).density = (gridSolverFailed a).density)
    ∧ (gridSolver (simArgs 1 (3/10) (5/2) (1/5) (1/10) 0 1)).success = true
    ∧ (gridSolverFailed (simArgs 1 (3/10) (5/2) (1/5) (1/10) 0 1)).success
        = false
    ∧ simulate gridSolver 1 (3/10) (5/2) (1/5) (1/10) 0 1
        = simulate gridSolverFailed 1 (3/10) (5/2) (1/5) (1/10) 0 1 :=
  ⟨fun a => rfl, fun a => rfl, fun a => rfl, rfl, rfl,
    simulate_ignores_success gridSolver gridSolverFailed
      1 (3/10) (5/2) (1/5) (1/10) 0 1
      (fun a => rfl) (fun a => rfl) (fun a => rfl)⟩

/-- C5 counterexample: simulate takes no horizon argument: two calls
with different parameter sets both hand the solver the fixed span
(0, 6) and the fixed 100-point grid, and the first call returns a
trajectory over that grid; no DegenerateHorizon error can arise. -/
theorem simulate_fixed_horizon_counterexample :
    (simArgs 1 (3/10) (5/2) (1/5) (1/10) 0 1).t0 = 0
    ∧ (simArgs 1 (3/10) (5/2) (1/5) (1/10) 0 1).tEnd = 6
    ∧ (simArgs (1/2) 1 2 1 (1/2) (1/4) 3).t0 = 0
    ∧ (simArgs (1/2) 1 2 1 (1/2) (1/4) 3).tEnd = 6
    ∧ (simulate gridSolver 1 (3/10) (5/2) (1/5) (1/10) 0 1).1
        = linspace 0 6 100 :=
  ⟨rfl, rfl, rfl, rfl, rfl⟩

/-- C5 amended: simulate accepts no caller-supplied horizon: every call
passes the fixed span (0, 6) and grid linspace 0 6 100 to the solver
and returns the solver's arrays; no DegenerateHorizon validation
exists. -/
theorem simulate_fixed_horizon (solve : IvpArgs → Solution)
    (k T alpha c x0 y0 r : ℚ) :
    (simArgs k T alpha c x0 y0 r).t0 = 0
    ∧ (simArgs k T alpha c x0 y0 r).tEnd = 6
    ∧ (simArgs k T alpha c x0 y0 r).tEval = linspace 0 6 100
    ∧ (simulate solve k T alpha c x0 y0 r).1
        = (solve (simArgs k T alpha c x0 y0 r)).t :=
  ⟨rfl, rfl, rfl, rfl⟩

/-- C9: simulate is deterministic: with the same (function) solver, two
invocations on equal parameter values yield identical time, damage and
density arrays. -/
theorem simulate_deterministic (solve : IvpArgs → Solution)
    (k1 T1 alpha1 c1 x01 y01 r1 k2 T2 alpha2 c2 x02 y02 r2 : ℚ)
    (hk : k1 = k2) (hT : T1 = T2) (halpha : alpha1 = alpha2)
    (hc : c1 = c2) (hx0 : x01 = x02) (hy0 : y01 = y02) (hr : r1 = r2) :
    simulate solve k1 T1 alpha1 c1 x01 y01 r1
      = simulate solve k2 T2 alpha2 c2 x02 y02 r2 := by
  subst hk hT halpha hc hx0 hy0 hr
  rfl

/-- Witness for C9 at the default slider values k = 1, T = 3/10,
alpha = 5/2, c = 1/5, x0 = 1/10, y0 = 0, r = 1. -/
theorem simulate_deterministic_witness :
    ((1 : ℚ) = 1) ∧ ((3/10 : ℚ) = 3/10) ∧ ((5/2 : ℚ) = 5/2)
    ∧ ((1/5 : ℚ) = 1/5) ∧ ((1/10 : ℚ) = 1/10) ∧ ((0 : ℚ) = 0)
    ∧ ((1 : ℚ) = 1)
    ∧ simulate gridSolver 1 (3/10) (5/2) (1/5) (1/10) 0 1
        = simulate gridSolver 1 (3/10) (5/2) (1/5) (1/10) 0 1 :=
  ⟨rfl, rfl, rfl, rfl, rfl, rfl, rfl,
    simulate_deterministic gridSolver 1 (3/10) (5/2) (1/5) (1/10) 0 1
      1 (3/10) (5/2) (1/5) (1/10) 0 1 rfl rfl rfl rfl rfl rfl rfl⟩

/-- The left fold of max over a list starting from v is v or a list
element, is at least v, and bounds every list element (helper). -/
theorem foldl_max_spec : ∀ (vs : List ℚ) (v : ℚ),
    (vs.foldl max v = v ∨ vs.foldl max v ∈ vs)
    ∧ v ≤ vs.foldl max v ∧ ∀ u ∈ vs, u ≤ vs.foldl max v
  | [], v => ⟨Or.inl rfl, le_refl v, fun u hu => absurd hu (List.not_mem_nil u)⟩
  | w :: ws, v => by
      obtain ⟨hmem, hle, hall⟩ := foldl_max_spec ws (max v w)
      refine ⟨?_, le_trans (le_max_left v w) hle, ?_⟩
      · rcases hmem with h | h
        · rcases max_choice v w with hv | hw
          · exact Or.inl (by rw [List.foldl_cons, h, hv])
          · refine Or.inr ?_
            rw [List.foldl_cons, h, hw]
            exact List.mem_cons_self w ws
        · exact Or.inr (List.mem_cons_of_mem w h)
      · intro u hu
        rcases List.mem_cons.mp hu with rfl | hu'
        · exact le_trans (le_max_right v u) hle
        · exact hall u hu'

/-- pymax returns a member of the list that bounds every member
(helper). -/
theorem pymax_spec (l : List ℚ) (m : ℚ) (h : pymax l = some m) :
    m ∈ l ∧ ∀ u ∈ l, u ≤ m := by
  cases l with
  | nil => simp [pymax] at h
  | cons v vs =>
      have hm : vs.foldl max v = m := by simpa [pymax] using h
      obtain ⟨hmem, hle, hall⟩ := foldl_max_spec vs v
      subst hm
      constructor
      · rcases hmem with h1 | h1
        · rw [h1]
          exact List.mem_cons_self v vs
        · exact List.mem_cons_of_mem v h1
      · intro u hu
        rcases List.mem_cons.mp hu with rfl | hu'
        · exact hle
        · exact hall u hu'

/-- C8: the shared axis bounds equal 1.1 times the larger of the two
runs' peak x-values and 1.1 times the larger of the two runs' peak
y-values, where each pymax value really is that run's peak. -/
theorem sweepAxisBounds_spec (x1 x2 y1 y2 : List ℚ) (mx1 mx2 my1 my2 : ℚ)
    (h1 : pymax x1 = some mx1) (h2 : pymax x2 = some mx2)
    (h3 : pymax y1 = some my1) (h4 : pymax y2 = some my2) :
    sweepAxisBounds x1 x2 y1 y2
      = some (1.1 * max mx1 mx2, 1.1 * max my1 my2)
    ∧ (mx1 ∈ x1 ∧ ∀ u ∈ x1, u ≤ mx1)
    ∧ (mx2 ∈ x2 ∧ ∀ u ∈ x2, u ≤ mx2)
    ∧ (my1 ∈ y1 ∧ ∀ u ∈ y1, u ≤ my1)
    ∧ (my2 ∈ y2 ∧ ∀ u ∈ y2, u ≤ my2) := by
  refine ⟨?_, pymax_spec x1 mx1 h1, pymax_spec x2 mx2 h2,
    pymax_spec y1 my1 h3, pymax_spec y2 my2 h4⟩
  simp only [sweepAxisBounds, h1, h2, h3, h4]
  rw [mul_comm (max mx1 mx2) 1.1, mul_comm (max my1 my2) 1.1]

/-- Witness for C8 on the runs x1 = [1, 3], x2 = [2], y1 = [5],
y2 = [4, 1]: peaks 3, 2, 5, 4 and bounds (1.1·3, 1.1·5). -/
theorem sweepAxisBounds_spec_witness :
    (pymax [1, 3] = some 3 ∧ pymax [2] = some 2
      ∧ pymax [5] = some 5 ∧ pymax [4, 1] = some 4)
    ∧ (sweepAxisBounds [1, 3] [2] [5] [4, 1]
          = some (1.1 * max 3 2, 1.1 * max 5 4)
      ∧ ((3 : ℚ) ∈ [1, 3] ∧ ∀ u ∈ ([1, 3] : List ℚ), u ≤ 3)
      ∧ ((2 : ℚ) ∈ [2] ∧ ∀ u ∈ ([2] : List ℚ), u ≤ 2)
      ∧ ((5 : ℚ) ∈ [5] ∧ ∀ u ∈ ([5] : List ℚ), u ≤ 5)
      ∧ ((4 : ℚ) ∈ [4, 1] ∧ ∀ u ∈ ([4, 1] : List ℚ), u ≤ 4)) :=
  ⟨⟨by decide, by decide, by decide, by decide⟩,
    sweepAxisBounds_spec [1, 3] [2] [5] [4, 1] 3 2 5 4
      (by decide) (by decide) (by decide) (by decide)⟩
